import Mathlib

/-!
Verification of the banner-overlay service (ffmpeg-banner-api).

Shallow embedding of the core logic of the repository:
  * the banner geometry resolver of `addScrollingBanner` (second source
    variant, the one with dual-unit configuration support),
  * the template-height inference `inferTemplateHeight`,
  * the retrying fetcher `downloadVideo`,
  * the prober `getVideoDimensions`,
  * the batch endpoint `/add-banners-batch` as an effect trace over an
    abstract environment.

JS numbers are modelled as rationals, `Math.round` as `⌊x + 1/2⌋`
(which is exactly the JS rounding rule, including for negative halves),
and JS strings as Lean strings (lists of characters).
-/

/-- JS `Math.round`: round half up, `Math.round x = ⌊x + 0.5⌋`. -/
def jround (q : ℚ) : ℤ := ⌊q + 1/2⌋

/-- JS `a || b` for a possibly-undefined number `a`: `undefined` and `0`
are falsy, every other number is truthy.  Used for
`config.template_height || inferTemplateHeight(...)` in the source. -/
def jsOrQ (a : Option ℚ) (b : ℚ) : ℚ :=
  match a with
  | none => b
  | some x => if x = 0 then b else x

/-- JS `a || b` for a possibly-undefined string `a`: `undefined` and the
empty string are falsy.  Used for the text-color fallback chain. -/
def jsOrStr (a : Option String) (b : String) : String :=
  match a with
  | none => b
  | some s => if s = "" then b else s

/-- JS `String.prototype.replace("0x", "#")`: replace the first
occurrence of `"0x"`, character-list level.  Specialized to the one
pattern/replacement pair the source uses. -/
def replaceOnce0x : List Char → List Char
  | [] => []
  | [c1] => [c1]
  | c1 :: c2 :: rest =>
    if c1 = '0' ∧ c2 = 'x' then '#' :: rest
    else c1 :: replaceOnce0x (c2 :: rest)

/-- The source's `s.replace("0x", "#")` on a string. -/
def jsReplace0x (s : String) : String := ⟨replaceOnce0x s.data⟩

/-- Source `inferTemplateHeight(width, height)`: standard template
dimensions looked up from the aspect ratio. -/
def inferTemplateHeight (w h : ℚ) : ℚ :=
  let aspectRatio := w / h
  if aspectRatio < 7/10 then 1280
  else if aspectRatio < 9/10 then 1350
  else if aspectRatio < 11/10 then 1080
  else 720

/-- A merged banner configuration (the result of
`{ ...DEFAULT_BANNER_CONFIG, ...bannerConfig }` in the source): each
field is `none` when the merged object leaves it `undefined`. -/
structure BannerConfig where
  y_percent : Option ℚ
  y : Option ℚ
  font_size_percent : Option ℚ
  font_size : Option ℚ
  template_height : Option ℚ
  show_background : Bool
  text_color : Option String
  fill_color : Option String
  bg_color : String
deriving DecidableEq, Repr

/-- The default configuration `DEFAULT_BANNER_CONFIG` of the source,
viewed as a fully merged configuration. -/
def defaultMergedConfig : BannerConfig :=
  { y_percent := some (159/1000)
  , y := none
  , font_size_percent := some (1/25)
  , font_size := none
  , template_height := none
  , show_background := false
  , text_color := some "#feb628"
  , fill_color := none
  , bg_color := "#1a325b" }

/-- Probed intrinsic properties of a video file. -/
structure VideoMeta where
  width : ℚ
  height : ℚ
  duration : ℚ
deriving DecidableEq, Repr

/-- The fully resolved overlay parameters computed by
`addScrollingBanner` before it invokes ffmpeg. -/
structure Geometry where
  fontSize : ℤ
  yPercent : ℚ
  bannerY : ℤ
  textColor : String
  bgColor : String
  scrollSpeed : ℚ
  showBackground : Bool
  boxBorder : Option ℤ
deriving DecidableEq, Repr

/-- The pure parameter computation of `addScrollingBanner` (second source
variant, lines 403-457 of the combined file): font size with dual-unit
precedence, y position with dual-unit precedence plus the 0.3*fontSize
glyph-padding correction, color fallback chains with `0x` normalization,
and the scroll speed for two traversals. -/
def resolveGeometry (cfg : BannerConfig) (w h : ℚ) (textLen : ℕ) (duration : ℚ) :
    Geometry :=
  let fontSize : ℤ :=
    match cfg.font_size_percent with
    | some p => jround (min w h * p)
    | none =>
      match cfg.font_size with
      | some fs =>
        let templateHeight := jsOrQ cfg.template_height (inferTemplateHeight w h)
        let fontSizePercent := fs / min templateHeight (templateHeight * (w / h))
        jround (min w h * fontSizePercent)
      | none => jround (min w h * (1/25))
  let yPercent : ℚ :=
    match cfg.y_percent with
    | some yp => yp
    | none =>
      match cfg.y with
      | some y =>
        let templateHeight := jsOrQ cfg.template_height (inferTemplateHeight w h)
        y / templateHeight
      | none => 159/1000
  let bannerY : ℤ := jround (h * yPercent + (fontSize : ℚ) * (3/10))
  let textColor : String :=
    jsReplace0x (jsOrStr cfg.text_color (jsOrStr cfg.fill_color "#feb628"))
  let bgColor : String := jsReplace0x cfg.bg_color
  let estimatedTextWidth : ℚ := (fontSize : ℚ) * (textLen : ℚ) * (6/10)
  let totalScrollDistance : ℚ := (estimatedTextWidth + w) * 2
  let scrollSpeed : ℚ := totalScrollDistance / duration
  { fontSize := fontSize
  , yPercent := yPercent
  , bannerY := bannerY
  , textColor := textColor
  , bgColor := bgColor
  , scrollSpeed := scrollSpeed
  , showBackground := cfg.show_background
  , boxBorder :=
      if cfg.show_background then some (jround ((fontSize : ℚ) * (3/10))) else none }

/-- Resolved parameters of the first (percent-only) source variant. -/
structure GeometryA where
  fontSize : ℤ
  bannerY : ℤ
  textColor : String
  bgColor : String
  scrollSpeed : ℚ
deriving DecidableEq, Repr

/-- The parameter computation of the first source variant of
`addScrollingBanner` (percent-only configuration, no glyph-padding
correction, three traversals); `index.js` is the special case
`y_percent = 0.159`, `font_size_percent = 0.04`. -/
def resolveGeometryA (yPct fontPct : ℚ) (textCol bgCol : String)
    (w h : ℚ) (textLen : ℕ) (duration : ℚ) : GeometryA :=
  let fontSize : ℤ := jround (min w h * fontPct)
  let bannerY : ℤ := jround (h * yPct)
  let textColor : String := jsReplace0x textCol
  let bgColor : String := jsReplace0x bgCol
  let estimatedTextWidth : ℚ := (fontSize : ℚ) * (textLen : ℚ) * (6/10)
  let totalScrollDistance : ℚ := (estimatedTextWidth + w) * 3
  let scrollSpeed : ℚ := totalScrollDistance / duration
  ⟨fontSize, bannerY, textColor, bgColor, scrollSpeed⟩

/-- The caller's duration coalescing `duration || info.duration`
(`undefined` and `0` are falsy and fall back to the probed duration). -/
def resolveDuration (override : Option ℚ) (probed : ℚ) : ℚ :=
  match override with
  | none => probed
  | some d => if d = 0 then probed else d

/-- The scroll wrap period of the drawtext x-expression
`w - mod(t*speed, w + tw + 100)`: the offset is periodic in `t` with
period `(tw + w + 100) / speed`. -/
def scrollPeriod (textWidth w speed : ℚ) : ℚ := (textWidth + w + 100) / speed

/-- The banner text built by `addScrollingBanner`. -/
def bannerText (avatarName platform : String) : String :=
  "Ask for " ++ avatarName ++ " and mention you saw this on " ++ platform ++ "!"

/-! ### The resilient fetcher `downloadVideo` -/

/-- Outcome of one HTTP attempt: success, or a failure carrying the
optional HTTP status (`none` models a network error with no
`error.response`). -/
inductive AttemptOut where
  | ok
  | fail (status : Option ℕ)
deriving DecidableEq, Repr

/-- Final outcome of `downloadVideo`: success or surfaced error, each
remembering the attempt number on which the loop stopped. -/
inductive FetchResult where
  | ok (attempt : ℕ)
  | err (status : Option ℕ) (attempt : ℕ)
deriving DecidableEq, Repr

/-- Retry condition of the source:
`status === 404 || status >= 500` (an absent status never retries,
because `undefined >= 500` is false in JS). -/
def retryable : Option ℕ → Bool
  | some st => (st == 404) || decide (500 ≤ st)
  | none => false

/-- The attempt loop of `downloadVideo`, indexed by the current attempt
number and the remaining fuel (`maxRetries` iterations in total); `none`
means the loop ran off its end without returning, which in the source
only happens when `maxRetries = 0`. -/
def fetchAux (env : ℕ → AttemptOut) (maxRetries : ℕ) : ℕ → ℕ → Option FetchResult
  | _, 0 => none
  | attempt, fuel + 1 =>
    match env attempt with
    | .ok => some (.ok attempt)
    | .fail s =>
      if retryable s ∧ attempt < maxRetries then
        fetchAux env maxRetries (attempt + 1) fuel
      else
        some (.err s attempt)

/-- Source `downloadVideo(url, outputPath, maxRetries = 5, ...)`, with
the network abstracted as a map from attempt number to outcome. -/
def downloadVideo (env : ℕ → AttemptOut) (maxRetries : ℕ) : Option FetchResult :=
  fetchAux env maxRetries 1 maxRetries

/-! ### The prober `getVideoDimensions` -/

/-- One entry of `metadata.streams`. -/
structure StreamInfo where
  codec_type : String
  width : ℚ
  height : ℚ
deriving DecidableEq, Repr

/-- The `metadata.format` object. -/
structure FormatInfo where
  duration : ℚ
deriving DecidableEq, Repr

/-- The metadata object handed to the ffprobe callback. -/
structure FFMeta where
  streams : List StreamInfo
  format : FormatInfo
deriving DecidableEq, Repr

/-- How the promise of `getVideoDimensions` can end: `resolved` with
dimensions, `rejected err` via the `reject(err)` call, or `typeError`,
which models the JS `TypeError` thrown by `video.width` when
`streams.find(...)` returned `undefined` — an untyped crash inside the
ffprobe callback, not a rejection of the promise. -/
inductive ProbeOutcome where
  | resolved (m : VideoMeta)
  | rejected (msg : String)
  | typeError
deriving DecidableEq, Repr

/-- Source `getVideoDimensions`, with ffprobe abstracted as its result:
either an error (first callback argument) or a metadata object. -/
def getVideoDimensions : Except String FFMeta → ProbeOutcome
  | .error e => .rejected e
  | .ok meta =>
    match meta.streams.find? (fun s => s.codec_type == "video") with
    | some v => .resolved ⟨v.width, v.height, meta.format.duration⟩
    | none => .typeError

/-! ### The batch endpoint as an effect trace

The handler of `/add-banners-batch` is modelled as a function of an
abstract environment supplying the outcome of each external call
(download, ffprobe, ffmpeg render, Cloudinary upload).  Scratch paths
are modelled by an inductive type: the source builds them as
`input-${jobId}.mp4` and `output-${jobId}-${platform}.mp4`, which are
distinct for distinct constructors by construction. -/

/-- Scratch file paths of one batch job. -/
inductive FPath where
  | input
  | output (tag : String)
deriving DecidableEq, Repr

/-- Events recorded by the model, for counting external calls. -/
inductive Ev where
  | fetchEv
  | probeEv
  | renderEv (tag : String)
  | uploadEv (tag : String)
  | unlinkEv (p : FPath)
deriving DecidableEq, Repr

def isFetch : Ev → Bool
  | .fetchEv => true
  | _ => false

def isProbe : Ev → Bool
  | .probeEv => true
  | _ => false

/-- One `{platform, video_url}` entry of the batch response. -/
structure TagResult where
  platform : String
  video_url : String
deriving DecidableEq, Repr

/-- The abstract environment of one batch job.  `render` receives the
resolved geometry (the drawtext options handed to ffmpeg), `upload` the
scratch path being published. -/
structure BatchEnv where
  fetch : Except String Unit
  probe : Except String VideoMeta
  render : String → Geometry → Except String Unit
  upload : FPath → Except String String

/-- Result of one batch job: the HTTP response (error message or result
list), the scratch files still existing, and the recorded event trace. -/
structure BatchOut where
  response : Except String (List TagResult)
  files : List FPath
  trace : List Ev
deriving Repr

/-- `fs.createWriteStream`-style file creation (idempotent on the model's
file list). -/
def addFile (files : List FPath) (f : FPath) : List FPath :=
  if f ∈ files then files else f :: files

/-- The geometry `addScrollingBanner` resolves for one tag: the text is
built from the avatar name and the upper-cased platform tag, the
dimensions come from the (re-)probed input file. -/
def tagGeometry (cfg : BannerConfig) (m : VideoMeta) (avatar tag : String)
    (dur : ℚ) : Geometry :=
  resolveGeometry cfg m.width m.height (bannerText avatar tag.toUpper).length dur

/-- The per-platform loop of the batch handler.  Each iteration runs
`addScrollingBanner` (which itself probes the shared input file before
resolving the geometry and rendering), then uploads and unlinks the
per-tag output file; the first failure aborts the loop with the thrown
error.  Returns the response-so-far, the file set, and the trace. -/
def processTags (env : BatchEnv) (cfg : BannerConfig) (avatar : String) (dur : ℚ) :
    List String → List FPath → List Ev → List TagResult →
    Except String (List TagResult) × List FPath × List Ev
  | [], files, trace, acc => (.ok acc, files, trace)
  | tag :: rest, files, trace, acc =>
    match env.probe with
    | .error e => (.error e, files, trace ++ [.probeEv])
    | .ok m =>
      match env.render tag (tagGeometry cfg m avatar tag dur) with
      | .error e => (.error e, files, trace ++ [.probeEv, .renderEv tag])
      | .ok _ =>
        let files1 := addFile files (.output tag)
        match env.upload (.output tag) with
        | .error e => (.error e, files1, trace ++ [.probeEv, .renderEv tag])
        | .ok url =>
          processTags env cfg avatar dur rest (files1.erase (.output tag))
            (trace ++ [.probeEv, .renderEv tag, .uploadEv tag, .unlinkEv (.output tag)])
            (acc ++ [⟨tag.toUpper, url⟩])

/-- The `/add-banners-batch` handler: download once, probe once, loop
over the platforms, unlink the shared input on success; on any thrown
error, the catch block checks for the shared input file only and
unlinks it if it exists, then responds with the error. -/
def runBatch (env : BatchEnv) (cfg : BannerConfig) (avatar : String)
    (platforms : List String) (durOverride : Option ℚ) : BatchOut :=
  match env.fetch with
  | .error e => ⟨.error e, [], [.fetchEv]⟩
  | .ok _ =>
    match env.probe with
    | .error e => ⟨.error e, [], [.fetchEv, .probeEv, .unlinkEv .input]⟩
    | .ok m =>
      let dur := resolveDuration durOverride m.duration
      match processTags env cfg avatar dur platforms [.input] [.fetchEv, .probeEv] [] with
      | (.ok results, files, trace) =>
        ⟨.ok results, files.erase .input, trace ++ [.unlinkEv .input]⟩
      | (.error e, files, trace) =>
        if FPath.input ∈ files then
          ⟨.error e, files.erase .input, trace ++ [.unlinkEv .input]⟩
        else
          ⟨.error e, files, trace⟩

/-- Per-tag event block in an all-success run. -/
def tagTrace (t : String) : List Ev :=
  [.probeEv, .renderEv t, .uploadEv t, .unlinkEv (.output t)]

/-- Event blocks of a list of successful tags, in order. -/
def tagsTrace : List String → List Ev
  | [] => []
  | t :: rest => tagTrace t ++ tagsTrace rest

/-! ### Definitions following the specification text (for refinement claims) -/

/-- Reference template height per the spec's words: the explicit
`templateHeight` if given, else inferred from the aspect ratio. -/
def refTemplateHeight (cfg : BannerConfig) (w h : ℚ) : ℚ :=
  match cfg.template_height with
  | some th => th
  | none => inferTemplateHeight w h

/-- Font-size resolution per the spec's words: `fontSizePercent` direct;
else convert the pixel `fontSize` through
`fontSize / min(templateHeight, templateHeight * aspectRatio)` and apply
against the actual `min(width,height)`; else the default percent 0.04. -/
def specFontSizePixels (cfg : BannerConfig) (w h : ℚ) : ℤ :=
  match cfg.font_size_percent with
  | some p => jround (min w h * p)
  | none =>
    match cfg.font_size with
    | some fs =>
      let th := refTemplateHeight cfg w h
      jround (min w h * (fs / min th (th * (w / h))))
    | none => jround (min w h * (1/25))

/-- Hexadecimal digit test (note that 'x' is not a hex digit). -/
def isHexChar (c : Char) : Bool :=
  c.isDigit || ('a' ≤ c && c ≤ 'f') || ('A' ≤ c && c ≤ 'F')

/-- Nonempty all-hex-digit character list. -/
def hexBody (l : List Char) : Bool := !l.isEmpty && l.all isHexChar

/-- A color literal in one of the two accepted shapes: `0x`-prefixed hex
or `#`-prefixed hex. -/
def isColorLit (c : String) : Bool :=
  match c.data with
  | c1 :: c2 :: rest =>
    if c1 = '0' ∧ c2 = 'x' then hexBody rest
    else if c1 = '#' then hexBody (c2 :: rest)
    else false
  | _ => false

/-- Color normalization per the spec's words: a `0x`-prefixed form maps
to the `#`-prefixed form, anything else is left unchanged. -/
def specNormalize (c : String) : String :=
  match c.data with
  | c1 :: c2 :: rest => if c1 = '0' ∧ c2 = 'x' then ⟨'#' :: rest⟩ else c
  | _ => c

/-- Text-color precedence per the spec's words: `textColor` if given,
else `fillColor` if given, else the default gold, then normalized. -/
def specTextColor (tc fc : Option String) : String :=
  specNormalize (tc.getD (fc.getD "#feb628"))

/-- A merged configuration whose numeric fields are sensible: percents
in (0,1], pixel values and template heights positive. -/
def ValidConfig (cfg : BannerConfig) : Prop :=
  (∀ p, cfg.font_size_percent = some p → 0 < p ∧ p ≤ 1) ∧
  (∀ fs, cfg.font_size = some fs → 0 < fs) ∧
  (∀ th, cfg.template_height = some th → 0 < th)

/-! ### Helper lemmas -/

lemma jround_nonneg {q : ℚ} (h : 0 ≤ q) : 0 ≤ jround q := by
  unfold jround
  exact Int.le_floor.mpr (by push_cast; linarith)

lemma inferTemplateHeight_pos (w h : ℚ) : 0 < inferTemplateHeight w h := by
  unfold inferTemplateHeight
  dsimp only
  split <;> norm_num
  split <;> norm_num
  split <;> norm_num

/-- On an all-hex-digit character list the `0x` replacement finds no
occurrence and acts as the identity ('x' is not a hex digit). -/
lemma replaceOnce0x_all_hex :
    ∀ l : List Char, l.all isHexChar = true → replaceOnce0x l = l := by
  intro l
  induction l with
  | nil => intro _; rfl
  | cons c1 tl ih =>
    intro hall
    cases tl with
    | nil => rfl
    | cons c2 rest =>
      simp only [List.all_cons, Bool.and_eq_true] at hall
      have hx : ¬(c1 = '0' ∧ c2 = 'x') := by
        rintro ⟨-, rfl⟩
        have := hall.2.1
        simp [isHexChar, Char.isDigit, Char.le_def] at this
      have htl : (c2 :: rest).all isHexChar = true := by
        simp only [List.all_cons, Bool.and_eq_true]
        exact ⟨hall.2.1, hall.2.2⟩
      simp only [replaceOnce0x, if_neg hx]
      rw [ih htl]

/-- On accepted color literals the source's first-occurrence replacement
agrees with the spec's prefix normalization. -/
lemma jsReplace0x_colorLit (c : String) (h : isColorLit c = true) :
    jsReplace0x c = specNormalize c := by
  obtain ⟨l⟩ := c
  match l with
  | [] => simp [isColorLit] at h
  | [c1] => simp [isColorLit] at h
  | c1 :: c2 :: rest =>
    by_cases h0x : c1 = '0' ∧ c2 = 'x'
    · obtain ⟨rfl, rfl⟩ := h0x
      simp [jsReplace0x, replaceOnce0x, specNormalize]
    · simp only [isColorLit, if_neg h0x] at h
      by_cases hq : c1 = '#'
      · subst hq
        rw [if_pos rfl] at h
        simp only [hexBody, Bool.and_eq_true] at h
        have hfix := replaceOnce0x_all_hex (c2 :: rest) h.2
        simp only [jsReplace0x, specNormalize, if_neg h0x]
        simp only [replaceOnce0x, if_neg h0x]
        rw [hfix]
      · rw [if_neg hq] at h
        exact absurd h (by simp)

/-- Accepted color literals are nonempty (so JS truthiness of a given
color coincides with it being given). -/
lemma colorLit_ne_empty (c : String) (h : isColorLit c = true) : c ≠ "" := by
  obtain ⟨l⟩ := c
  match l with
  | [] => simp [isColorLit] at h
  | [c1] => simp [isColorLit] at h
  | c1 :: c2 :: rest =>
    intro hc
    have : (⟨c1 :: c2 :: rest⟩ : String).data = ("" : String).data := by rw [hc]
    simp at this

lemma output_ne_input (t : String) : (FPath.output t) ≠ FPath.input := by
  simp

lemma processTags_all_ok (env : BatchEnv) (cfg : BannerConfig) (avatar : String)
    (dur : ℚ) (m : VideoMeta) (u : String → String) (hp : env.probe = .ok m) :
    ∀ (tags : List String) (files : List FPath) (trace : List Ev)
      (acc : List TagResult),
      (∀ t ∈ tags, env.render t (tagGeometry cfg m avatar t dur) = .ok () ∧
        env.upload (.output t) = .ok (u t)) →
      (∀ t ∈ tags, FPath.output t ∉ files) →
      processTags env cfg avatar dur tags files trace acc =
        (.ok (acc ++ tags.map fun t => ⟨t.toUpper, u t⟩), files,
          trace ++ tagsTrace tags) := by
  intro tags
  induction tags with
  | nil =>
    intro files trace acc _ _
    simp [processTags, tagsTrace]
  | cons t rest ih =>
    intro files trace acc hok hout
    have ht := hok t (by simp)
    have hnotin : FPath.output t ∉ files := hout t (by simp)
    simp only [processTags, hp, ht.1, addFile, if_neg hnotin, ht.2,
      List.erase_cons_head]
    rw [ih files _ _ (fun s hs => hok s (by simp [hs]))
      (fun s hs => hout s (by simp [hs]))]
    simp [tagsTrace, tagTrace]

lemma processTags_render_fail (env : BatchEnv) (cfg : BannerConfig)
    (avatar : String) (dur : ℚ) (m : VideoMeta) (u : String → String)
    (hp : env.probe = .ok m) :
    ∀ (pre : List String) (t : String) (rest : List String) (files : List FPath)
      (trace : List Ev) (acc : List TagResult) (e : String),
      (∀ s ∈ pre, env.render s (tagGeometry cfg m avatar s dur) = .ok () ∧
        env.upload (.output s) = .ok (u s)) →
      (∀ s ∈ pre, FPath.output s ∉ files) →
      env.render t (tagGeometry cfg m avatar t dur) = .error e →
      processTags env cfg avatar dur (pre ++ t :: rest) files trace acc =
        (.error e, files, trace ++ tagsTrace pre ++ [.probeEv, .renderEv t]) := by
  intro pre
  induction pre with
  | nil =>
    intro t rest files trace acc e _ _ hfail
    simp only [List.nil_append, processTags, hp, hfail]
    simp [tagsTrace]
  | cons s pre ih =>
    intro t rest files trace acc e hok hout hfail
    have hs := hok s (by simp)
    have hnotin : FPath.output s ∉ files := hout s (by simp)
    simp only [List.cons_append, processTags, hp, hs.1, addFile, if_neg hnotin,
      hs.2, List.erase_cons_head, List.append_eq]
    rw [ih t rest files _ _ e (fun x hx => hok x (by simp [hx]))
      (fun x hx => hout x (by simp [hx])) hfail]
    simp [tagsTrace, tagTrace]

lemma processTags_upload_fail (env : BatchEnv) (cfg : BannerConfig)
    (avatar : String) (dur : ℚ) (m : VideoMeta) (u : String → String)
    (hp : env.probe = .ok m) :
    ∀ (pre : List String) (t : String) (rest : List String) (files : List FPath)
      (trace : List Ev) (acc : List TagResult) (e : String),
      (∀ s ∈ pre, env.render s (tagGeometry cfg m avatar s dur) = .ok () ∧
        env.upload (.output s) = .ok (u s)) →
      (∀ s ∈ pre, FPath.output s ∉ files) →
      env.render t (tagGeometry cfg m avatar t dur) = .ok () →
      env.upload (.output t) = .error e →
      processTags env cfg avatar dur (pre ++ t :: rest) files trace acc =
        (.error e, addFile files (.output t),
          trace ++ tagsTrace pre ++ [.probeEv, .renderEv t]) := by
  intro pre
  induction pre with
  | nil =>
    intro t rest files trace acc e _ _ hrok hufail
    simp only [List.nil_append, processTags, hp, hrok, hufail]
    simp [tagsTrace]
  | cons s pre ih =>
    intro t rest files trace acc e hok hout hrok hufail
    have hs := hok s (by simp)
    have hnotin : FPath.output s ∉ files := hout s (by simp)
    simp only [List.cons_append, processTags, hp, hs.1, addFile, if_neg hnotin,
      hs.2, List.erase_cons_head, List.append_eq]
    rw [ih t rest files _ _ e (fun x hx => hok x (by simp [hx]))
      (fun x hx => hout x (by simp [hx])) hrok hufail]
    simp [tagsTrace, tagTrace, addFile]

lemma tagsTrace_countP_probe :
    ∀ tags : List String, (tagsTrace tags).countP isProbe = tags.length := by
  intro tags
  induction tags with
  | nil => rfl
  | cons t rest ih =>
    simp [tagsTrace, tagTrace, List.countP_append, List.countP_cons, isProbe, ih]

lemma tagsTrace_countP_fetch :
    ∀ tags : List String, (tagsTrace tags).countP isFetch = 0 := by
  intro tags
  induction tags with
  | nil => rfl
  | cons t rest ih =>
    simp [tagsTrace, tagTrace, List.countP_append, List.countP_cons, isFetch, ih]

lemma fetchAux_all_fail (env : ℕ → AttemptOut) (maxR : ℕ) (s : ℕ → Option ℕ)
    (hall : ∀ i, 1 ≤ i → i ≤ maxR → env i = .fail (s i) ∧ retryable (s i) = true) :
    ∀ (fuel attempt : ℕ), 1 ≤ attempt → attempt ≤ maxR → attempt + fuel = maxR + 1 →
      fetchAux env maxR attempt fuel = some (.err (s maxR) maxR) := by
  intro fuel
  induction fuel with
  | zero => intro attempt _ h2 h3; omega
  | succ f ih =>
    intro attempt h1 h2 h3
    obtain ⟨henv, hretry⟩ := hall attempt h1 h2
    by_cases hlt : attempt < maxR
    · simp only [fetchAux, henv]
      rw [if_pos (show retryable (s attempt) = true ∧ attempt < maxR from ⟨hretry, hlt⟩)]
      exact ih (attempt + 1) (by omega) (by omega) (by omega)
    · have heq : attempt = maxR := by omega
      subst heq
      simp only [fetchAux, henv]
      rw [if_neg (show ¬(retryable (s attempt) = true ∧ attempt < attempt) from by simp)]

lemma fetchAux_retry404_ok (env : ℕ → AttemptOut) (maxR : ℕ)
    (hf : ∀ i, 1 ≤ i → i < maxR → env i = .fail (some 404))
    (hok : env maxR = .ok) :
    ∀ (fuel attempt : ℕ), 1 ≤ attempt → attempt ≤ maxR → attempt + fuel = maxR + 1 →
      fetchAux env maxR attempt fuel = some (.ok maxR) := by
  intro fuel
  induction fuel with
  | zero => intro attempt _ h2 h3; omega
  | succ f ih =>
    intro attempt h1 h2 h3
    by_cases hlt : attempt < maxR
    · have h404 : retryable (some 404) = true := by decide
      simp only [fetchAux, hf attempt h1 hlt]
      rw [if_pos (show retryable (some 404) = true ∧ attempt < maxR from ⟨h404, hlt⟩)]
      exact ih (attempt + 1) (by omega) (by omega) (by omega)
    · have heq : attempt = maxR := by omega
      subst heq
      simp only [fetchAux, hok]

/-! ### Concrete configurations used by particular-instance conjuncts -/

/-- Merged configuration giving only a pixel `font_size`. -/
def cfgPixelOnly : BannerConfig :=
  { y_percent := none, y := none, font_size_percent := none, font_size := some 40
  , template_height := none, show_background := false, text_color := none
  , fill_color := none, bg_color := "#1a325b" }

/-- Merged configuration with `font_size = 40` and `template_height = 1080`. -/
def cfgC5 : BannerConfig :=
  { y_percent := none, y := none, font_size_percent := none, font_size := some 40
  , template_height := some 1080, show_background := false, text_color := none
  , fill_color := none, bg_color := "#1a325b" }

/-- Merged configuration carrying the percent derived from `cfgC5`'s
pixel value through template height 1080 at aspect 1080/1920. -/
def cfgC5pct : BannerConfig :=
  { y_percent := none, y := none
  , font_size_percent := some (40 / min (1080:ℚ) (1080 * ((1080:ℚ)/1920)))
  , font_size := none, template_height := none, show_background := false
  , text_color := none, fill_color := none, bg_color := "#1a325b" }

/-- Merged configuration setting `fill_color` but not `text_color`. -/
def cfgFillOnly : BannerConfig :=
  { y_percent := none, y := none, font_size_percent := none, font_size := none
  , template_height := none, show_background := false, text_color := none
  , fill_color := some "0xabc123", bg_color := "#1a325b" }

/-! ### Claim theorems -/

/-- Claim C1: font-size resolution follows the stated precedence — a
given `fontSizePercent` is applied directly against `min(width,height)`;
otherwise a given pixel `fontSize` is converted through the reference
template height (explicit if given, else inferred from the aspect-ratio
lookup) via the effective percent
`fontSize / min(templateHeight, templateHeight * aspectRatio)` and
applied against the actual `min(width,height)`; otherwise the default
percent 0.04 is used.  In particular, the configuration `cfgPixelOnly`
(with `font_size = 40` and `font_size_percent` unset) takes the
template-conversion path, yielding 60 on a 1080x1920 video rather than
the default-path value. -/
theorem c1_font_size_precedence :
    (∀ (cfg : BannerConfig) (w h : ℚ) (len : ℕ) (dur : ℚ),
        (∀ th, cfg.template_height = some th → th ≠ 0) →
        (resolveGeometry cfg w h len dur).fontSize = specFontSizePixels cfg w h) ∧
    (resolveGeometry cfgPixelOnly 1080 1920 50 10).fontSize = 60 ∧
    cfgPixelOnly.font_size_percent = none ∧ cfgPixelOnly.font_size = some 40 := by
  refine ⟨?_, ?_, rfl, rfl⟩
  · intro cfg w h len dur hth
    cases hfsp : cfg.font_size_percent with
    | some p => simp [resolveGeometry, specFontSizePixels, hfsp]
    | none =>
      cases hfs : cfg.font_size with
      | none => simp [resolveGeometry, specFontSizePixels, hfsp, hfs]
      | some fs =>
        cases hthv : cfg.template_height with
        | none =>
          simp [resolveGeometry, specFontSizePixels, refTemplateHeight, jsOrQ,
            hfsp, hfs, hthv]
        | some th =>
          have hne := hth th hthv
          simp [resolveGeometry, specFontSizePixels, refTemplateHeight, jsOrQ,
            hfsp, hfs, hthv, hne]
  · norm_num [resolveGeometry, cfgPixelOnly, jround, jsOrQ, inferTemplateHeight,
      min_def]

/-- Claim C1 witness: the precedence equation instantiated at
`cfgPixelOnly` on a 1080x1920 video. -/
theorem c1_witness :
    (resolveGeometry cfgPixelOnly 1080 1920 50 10).fontSize =
      specFontSizePixels cfgPixelOnly 1080 1920 :=
  c1_font_size_precedence.1 cfgPixelOnly 1080 1920 50 10
    (by intro th h; simp [cfgPixelOnly] at h)

/-- Claim C5: round trip of the dual-unit conversion.  With
`fontSize = 40`, `templateHeight = 1080` and an actual 1080x1920 video,
the pixel-conversion path and the percent path at the derived percent
produce the same `fontSizePixels` (namely 71), and pushing the derived
percent back through the template dimensions of equal aspect ratio
reproduces the original pixel value 40 exactly. -/
theorem c5_round_trip :
    (resolveGeometry cfgC5 1080 1920 50 10).fontSize =
      (resolveGeometry cfgC5pct 1080 1920 50 10).fontSize ∧
    jround (min (1080:ℚ) (1080 * ((1080:ℚ)/1920)) *
      (40 / min (1080:ℚ) (1080 * ((1080:ℚ)/1920)))) = 40 ∧
    (resolveGeometry cfgC5 1080 1920 50 10).fontSize = 71 := by
  refine ⟨?_, ?_, ?_⟩ <;>
    norm_num [resolveGeometry, cfgC5, cfgC5pct, jround, jsOrQ, min_def]

/-- Claim C9: the resolved vertical position satisfies
`bannerYPixels = round(height * yPercent + 0.3 * fontSizePixels)` in the
variant with the glyph-padding compensation, and
`bannerYPixels = round(height * yPercent)` in the variant without it. -/
theorem c9_banner_y_formula :
    (∀ (cfg : BannerConfig) (w h : ℚ) (len : ℕ) (dur : ℚ),
        (resolveGeometry cfg w h len dur).bannerY =
          jround (h * (resolveGeometry cfg w h len dur).yPercent +
            ((resolveGeometry cfg w h len dur).fontSize : ℚ) * (3/10))) ∧
    (∀ (yPct fontPct : ℚ) (tc bc : String) (w h : ℚ) (len : ℕ) (dur : ℚ),
        (resolveGeometryA yPct fontPct tc bc w h len dur).bannerY =
          jround (h * yPct)) := by
  constructor
  · intro cfg w h len dur
    rfl
  · intro yPct fontPct tc bc w h len dur
    rfl

/-- Claim C3: text-color precedence as a single equation — for every
merged configuration whose given colors are accepted hex color literals,
the resolved text color equals the normalization of (`textColor` if
given, else `fillColor` if given, else the default gold), where
normalization maps a `0x`-prefixed form to the `#`-prefixed form and
leaves a `#`-prefixed form unchanged.  In particular `cfgFillOnly`,
which sets `fill_color` but not `text_color`, resolves to the normalized
fill color. -/
theorem c3_text_color_precedence :
    (∀ (cfg : BannerConfig) (w h : ℚ) (len : ℕ) (dur : ℚ),
        (∀ c, cfg.text_color = some c → isColorLit c = true) →
        (∀ c, cfg.fill_color = some c → isColorLit c = true) →
        (resolveGeometry cfg w h len dur).textColor =
          specTextColor cfg.text_color cfg.fill_color) ∧
    (resolveGeometry cfgFillOnly 100 100 50 10).textColor = "#abc123" ∧
    cfgFillOnly.text_color = none ∧ cfgFillOnly.fill_color = some "0xabc123" ∧
    specNormalize "0xfeb628" = "#feb628" ∧ specNormalize "#feb628" = "#feb628" := by
  refine ⟨?_, by decide, rfl, rfl, by decide, by decide⟩
  intro cfg w h len dur htc hfc
  have hproj : (resolveGeometry cfg w h len dur).textColor =
      jsReplace0x (jsOrStr cfg.text_color (jsOrStr cfg.fill_color "#feb628")) := rfl
  rw [hproj]
  cases htcv : cfg.text_color with
  | some c =>
    have hlit := htc c htcv
    have hne := colorLit_ne_empty c hlit
    simp only [jsOrStr, if_neg hne]
    rw [jsReplace0x_colorLit c hlit]
    simp [specTextColor]
  | none =>
    cases hfcv : cfg.fill_color with
    | some c =>
      have hlit := hfc c hfcv
      have hne := colorLit_ne_empty c hlit
      simp only [jsOrStr, if_neg hne]
      rw [jsReplace0x_colorLit c hlit]
      simp [specTextColor]
    | none =>
      simp only [jsOrStr, specTextColor, Option.getD_none]
      decide

/-- Claim C3 witness: the precedence equation instantiated at
`cfgFillOnly`. -/
theorem c3_witness :
    (resolveGeometry cfgFillOnly 100 100 50 10).textColor =
      specTextColor cfgFillOnly.text_color cfgFillOnly.fill_color :=
  c3_text_color_precedence.1 cfgFillOnly 100 100 50 10
    (by intro c h; simp [cfgFillOnly] at h)
    (by
      intro c h
      simp only [cfgFillOnly, Option.some.injEq] at h
      subst h
      decide)

lemma resolveGeometry_fontSize_nonneg (cfg : BannerConfig) (w h : ℚ) (len : ℕ)
    (dur : ℚ) (hv : ValidConfig cfg) (hw : 0 < w) (hh : 0 < h) :
    0 ≤ (resolveGeometry cfg w h len dur).fontSize := by
  have hmin : 0 < min w h := lt_min hw hh
  cases hfsp : cfg.font_size_percent with
  | some p =>
    have hp := hv.1 p hfsp
    have hrw : (resolveGeometry cfg w h len dur).fontSize = jround (min w h * p) := by
      simp [resolveGeometry, hfsp]
    rw [hrw]
    exact jround_nonneg (mul_pos hmin hp.1).le
  | none =>
    cases hfs : cfg.font_size with
    | some fs =>
      have hfspos := hv.2.1 fs hfs
      have hthpos : 0 < jsOrQ cfg.template_height (inferTemplateHeight w h) := by
        cases hthv : cfg.template_height with
        | none => simpa [jsOrQ] using inferTemplateHeight_pos w h
        | some th =>
          have hth := hv.2.2 th hthv
          simp [jsOrQ, hth.ne.symm, hth]
      have haspect : 0 < w / h := div_pos hw hh
      have hminth :
          0 < min (jsOrQ cfg.template_height (inferTemplateHeight w h))
            (jsOrQ cfg.template_height (inferTemplateHeight w h) * (w / h)) :=
        lt_min hthpos (mul_pos hthpos haspect)
      have hrw : (resolveGeometry cfg w h len dur).fontSize =
          jround (min w h *
            (fs / min (jsOrQ cfg.template_height (inferTemplateHeight w h))
              (jsOrQ cfg.template_height (inferTemplateHeight w h) * (w / h)))) := by
        simp [resolveGeometry, hfsp, hfs]
      rw [hrw]
      exact jround_nonneg (mul_pos hmin (div_pos hfspos hminth)).le
    | none =>
      have hrw : (resolveGeometry cfg w h len dur).fontSize =
          jround (min w h * (1/25)) := by
        simp [resolveGeometry, hfsp, hfs]
      rw [hrw]
      exact jround_nonneg (mul_pos hmin (by norm_num)).le

/-- Claim C4, amended: for every valid merged configuration and positive
dimensions, the computed scroll speed is positive (and finite, being a
rational) and so is the scroll wrap period, whenever the duration is
positive; the caller's falsy-coalescing guard replaces only a zero or
missing duration override with the probed duration, while a nonzero
(in particular negative) override passes through unguarded to the
division. -/
theorem c4_amended :
    (∀ (cfg : BannerConfig) (w h : ℚ) (len : ℕ) (dur : ℚ),
        ValidConfig cfg → 0 < w → 0 < h → 0 < dur →
        0 < (resolveGeometry cfg w h len dur).scrollSpeed ∧
        ∀ tw : ℚ, 0 ≤ tw →
          0 < scrollPeriod tw w (resolveGeometry cfg w h len dur).scrollSpeed) ∧
    (∀ probed : ℚ, resolveDuration (some 0) probed = probed ∧
        resolveDuration none probed = probed) ∧
    (∀ d probed : ℚ, d ≠ 0 → resolveDuration (some d) probed = d) := by
  refine ⟨?_, ?_, ?_⟩
  · intro cfg w h len dur hv hw hh hd
    have hF := resolveGeometry_fontSize_nonneg cfg w h len dur hv hw hh
    have hspeed : (resolveGeometry cfg w h len dur).scrollSpeed =
        ((((resolveGeometry cfg w h len dur).fontSize : ℚ) * (len : ℚ) * (6/10)) + w) *
          2 / dur := rfl
    have hest : 0 ≤ ((resolveGeometry cfg w h len dur).fontSize : ℚ) * (len : ℚ) * (6/10) := by
      have : (0:ℚ) ≤ ((resolveGeometry cfg w h len dur).fontSize : ℚ) := by
        exact_mod_cast hF
      positivity
    have hpos : 0 < (resolveGeometry cfg w h len dur).scrollSpeed := by
      rw [hspeed]
      have hdist : 0 < ((((resolveGeometry cfg w h len dur).fontSize : ℚ) *
          (len : ℚ) * (6/10)) + w) * 2 := by nlinarith
      exact div_pos hdist hd
    refine ⟨hpos, ?_⟩
    intro tw htw
    exact div_pos (by linarith) hpos
  · intro probed
    exact ⟨by simp [resolveDuration], rfl⟩
  · intro d probed hd
    simp [resolveDuration, hd]

/-- Claim C4 witness: positivity of the scroll speed at the default
configuration on a 1080x1920 video of duration 30. -/
theorem c4_witness :
    0 < (resolveGeometry defaultMergedConfig 1080 1920 50 30).scrollSpeed :=
  (c4_amended.1 defaultMergedConfig 1080 1920 50 30
    ⟨by intro p h; simp [defaultMergedConfig] at h; subst h; norm_num
    , by intro fs h; simp [defaultMergedConfig] at h
    , by intro th h; simp [defaultMergedConfig] at h⟩
    (by norm_num) (by norm_num) (by norm_num)).1

/-- Claim C4 counterexample: a negative duration override is neither
rejected by the resolver nor guarded by the caller's falsy coalescing —
it reaches the scroll-speed division unchanged and produces a negative
speed (the division by a non-positive duration does occur). -/
theorem c4_counterexample :
    resolveDuration (some (-5)) 10 = -5 ∧
    (resolveGeometry defaultMergedConfig 100 100 50
      (resolveDuration (some (-5)) 10)).scrollSpeed = -88 ∧
    ((-88 : ℚ) < 0) := by
  refine ⟨by norm_num [resolveDuration], ?_, by norm_num⟩
  norm_num [resolveDuration, resolveGeometry, defaultMergedConfig, jround]

/-- Claim C6: the fetcher retries exactly on HTTP status 404 or a 5xx
status while attempts remain — a failure with no status or a non-404
4xx status is fatal on the first attempt with zero retries, an
all-retryable run surfaces the last error after `maxAttempts` attempts,
and a 404-until-success run succeeds on the final attempt. -/
theorem c6_retry_policy :
    (∀ st : ℕ, st ≤ 599 →
        (retryable (some st) = true ↔ st = 404 ∨ (500 ≤ st ∧ st ≤ 599))) ∧
    retryable none = false ∧
    (∀ (env : ℕ → AttemptOut) (maxR : ℕ) (s : Option ℕ),
        1 ≤ maxR → env 1 = .fail s → retryable s = false →
        downloadVideo env maxR = some (.err s 1)) ∧
    (∀ (env : ℕ → AttemptOut) (maxR : ℕ) (s : ℕ → Option ℕ),
        1 ≤ maxR →
        (∀ i, 1 ≤ i → i ≤ maxR → env i = .fail (s i) ∧ retryable (s i) = true) →
        downloadVideo env maxR = some (.err (s maxR) maxR)) ∧
    (∀ (env : ℕ → AttemptOut) (maxR : ℕ),
        1 ≤ maxR →
        (∀ i, 1 ≤ i → i < maxR → env i = .fail (some 404)) →
        env maxR = .ok →
        downloadVideo env maxR = some (.ok maxR)) := by
  refine ⟨?_, rfl, ?_, ?_, ?_⟩
  · intro st hst
    simp only [retryable, Bool.or_eq_true, beq_iff_eq, decide_eq_true_eq]
    omega
  · intro env maxR s h1 henv hret
    obtain ⟨k, rfl⟩ : ∃ k, maxR = k + 1 := ⟨maxR - 1, by omega⟩
    simp only [downloadVideo, fetchAux, henv]
    rw [if_neg (show ¬(retryable s = true ∧ 1 < k + 1) from by
      rintro ⟨ha, -⟩; rw [hret] at ha; exact absurd ha (by simp))]
  · intro env maxR s h1 hall
    exact fetchAux_all_fail env maxR s hall maxR 1 le_rfl h1 (by omega)
  · intro env maxR h1 hf hok
    exact fetchAux_retry404_ok env maxR hf hok maxR 1 le_rfl h1 (by omega)

/-- Claim C6 witness: one retry on 404-then-success with two attempts,
and immediate fatal failure with zero retries on a 403. -/
theorem c6_witness :
    downloadVideo (fun i => if i = 1 then .fail (some 404) else .ok) 2 =
      some (.ok 2) ∧
    downloadVideo (fun _ => .fail (some 403)) 5 = some (.err (some 403) 1) := by
  constructor
  · refine c6_retry_policy.2.2.2.2 _ 2 (by omega) ?_ (by norm_num)
    intro i hi1 hi2
    have : i = 1 := by omega
    subst this
    simp
  · exact c6_retry_policy.2.2.1 _ 5 (some 403) (by omega) rfl (by decide)

/-- Claim C7: on metadata with no stream of type video, the prober does
not produce a typed failure — `streams.find(...)` yields `undefined` and
the subsequent `video.width` access raises an untyped JS `TypeError`
inside the ffprobe callback (`typeError` in the model), whereas an
ffprobe error is surfaced through the typed `reject(err)` path. -/
theorem c7_probe_no_video_stream :
    getVideoDimensions (.ok ⟨[⟨"audio", 0, 0⟩], ⟨10⟩⟩) = .typeError ∧
    getVideoDimensions (.error "unreadable") = .rejected "unreadable" :=
  ⟨by decide, rfl⟩

/-- All-success environment used for the C2 counterexample. -/
def envC2 : BatchEnv :=
  ⟨.ok (), .ok ⟨1080, 1920, 10⟩, fun _ _ => .ok (), fun _ => .ok "https-url"⟩

/-- Claim C2 counterexample: a fully successful batch over the single
tag list `["tiktok"]` probes the shared source twice — once in the
handler and once inside the per-tag render stage — so the batch does not
perform exactly one probe as claimed. -/
theorem c2_counterexample :
    (runBatch envC2 defaultMergedConfig "Ava" ["tiktok"] (some 30)).trace.countP
        isProbe = 2 ∧
    ¬((runBatch envC2 defaultMergedConfig "Ava" ["tiktok"] (some 30)).trace.countP
        isProbe = 1) := by
  constructor
  · decide
  · decide

/-- Claim C2, amended: a batch over platform tags in which every stage
succeeds performs exactly one fetch and exactly N+1 probes of the shared
source (one by the handler plus one inside each per-tag render stage),
and returns exactly one `{platformTag, publishedUrl}` entry per tag in
input order. -/
theorem c2_amended_batch (env : BatchEnv) (cfg : BannerConfig) (avatar : String)
    (durO : Option ℚ) (m : VideoMeta) (u : String → String)
    (platforms : List String)
    (hf : env.fetch = .ok ()) (hp : env.probe = .ok m)
    (hok : ∀ t ∈ platforms,
      env.render t (tagGeometry cfg m avatar t (resolveDuration durO m.duration)) =
        .ok () ∧
      env.upload (.output t) = .ok (u t)) :
    (runBatch env cfg avatar platforms durO).response =
      .ok (platforms.map fun t => ⟨t.toUpper, u t⟩) ∧
    (runBatch env cfg avatar platforms durO).trace.countP isFetch = 1 ∧
    (runBatch env cfg avatar platforms durO).trace.countP isProbe =
      platforms.length + 1 := by
  have hout : ∀ t ∈ platforms, FPath.output t ∉ [FPath.input] := by
    intro t _; simp
  have hrun := processTags_all_ok env cfg avatar (resolveDuration durO m.duration)
    m u hp platforms [FPath.input] [Ev.fetchEv, Ev.probeEv] [] hok hout
  simp only [runBatch, hf, hp]
  rw [hrun]
  refine ⟨by simp, ?_, ?_⟩ <;>
    simp [List.countP_append, tagsTrace_countP_probe, tagsTrace_countP_fetch,
      List.countP_cons, isProbe, isFetch]

/-- All-success environment used for the C2 witness. -/
def envC2w : BatchEnv :=
  ⟨.ok (), .ok ⟨720, 1280, 8⟩, fun _ _ => .ok (), fun _ => .ok "url"⟩

/-- Claim C2 witness: the amended batch property instantiated on two
tags. -/
theorem c2_witness :
    (runBatch envC2w defaultMergedConfig "Kay" ["a", "b"] none).response =
      .ok [⟨"a".toUpper, "url"⟩, ⟨"b".toUpper, "url"⟩] ∧
    (runBatch envC2w defaultMergedConfig "Kay" ["a", "b"] none).trace.countP
      isProbe = 3 := by
  have h := c2_amended_batch envC2w defaultMergedConfig "Kay" none ⟨720, 1280, 8⟩
    (fun _ => "url") ["a", "b"] rfl rfl
    (by intro t ht; exact ⟨rfl, rfl⟩)
  refine ⟨?_, by simpa using h.2.2⟩
  rw [h.1]
  simp

/-- Claim C8: when some tag's render or publish fails (after a
successful fetch and probe, with every earlier tag fully succeeding),
the whole batch responds with that error and no result entries, and the
shared input scratch file no longer exists afterwards. -/
theorem c8_batch_failure (env : BatchEnv) (cfg : BannerConfig) (avatar : String)
    (durO : Option ℚ) (m : VideoMeta) (u : String → String)
    (pre : List String) (t : String) (rest : List String) (e : String)
    (hf : env.fetch = .ok ()) (hp : env.probe = .ok m)
    (hok : ∀ s ∈ pre,
      env.render s (tagGeometry cfg m avatar s (resolveDuration durO m.duration)) =
        .ok () ∧
      env.upload (.output s) = .ok (u s))
    (hfail :
      env.render t (tagGeometry cfg m avatar t (resolveDuration durO m.duration)) =
        .error e ∨
      (env.render t (tagGeometry cfg m avatar t (resolveDuration durO m.duration)) =
        .ok () ∧ env.upload (.output t) = .error e)) :
    (runBatch env cfg avatar (pre ++ t :: rest) durO).response = .error e ∧
    FPath.input ∉ (runBatch env cfg avatar (pre ++ t :: rest) durO).files := by
  have hout : ∀ s ∈ pre, FPath.output s ∉ [FPath.input] := by
    intro s _; simp
  rcases hfail with hrf | ⟨hrok, huf⟩
  · have hrun := processTags_render_fail env cfg avatar
      (resolveDuration durO m.duration) m u hp pre t rest [FPath.input]
      [Ev.fetchEv, Ev.probeEv] [] e hok hout hrf
    simp only [runBatch, hf, hp]
    rw [hrun]
    simp
  · have hrun := processTags_upload_fail env cfg avatar
      (resolveDuration durO m.duration) m u hp pre t rest [FPath.input]
      [Ev.fetchEv, Ev.probeEv] [] e hok hout hrok huf
    simp only [runBatch, hf, hp]
    rw [hrun]
    simp [addFile]

/-- Environment whose render stage fails on tag `bad`, used for the C8
witness. -/
def envC8 : BatchEnv :=
  ⟨.ok (), .ok ⟨1080, 1080, 20⟩,
    fun t _ => if t = "bad" then .error "render failed" else .ok (),
    fun _ => .ok "url"⟩

/-- Claim C8 witness: a three-tag batch whose second render fails. -/
theorem c8_witness :
    (runBatch envC8 defaultMergedConfig "Kay" ["a", "bad", "c"] none).response =
      .error "render failed" ∧
    FPath.input ∉
      (runBatch envC8 defaultMergedConfig "Kay" ["a", "bad", "c"] none).files := by
  have h := c8_batch_failure envC8 defaultMergedConfig "Kay" none ⟨1080, 1080, 20⟩
    (fun _ => "url") ["a"] "bad" ["c"] "render failed" rfl rfl
    (by
      intro s hs
      simp only [List.mem_singleton] at hs
      subst hs
      refine ⟨?_, rfl⟩
      show (if ("a" : String) = "bad" then Except.error "render failed"
        else Except.ok ()) = Except.ok ()
      rw [if_neg (by decide)])
    (Or.inl (by
      show (if ("bad" : String) = "bad" then Except.error "render failed"
        else Except.ok ()) = Except.error "render failed"
      rw [if_pos rfl]))
  exact ⟨h.1, h.2⟩

/-- Claim C10: the batch error path checks and removes only the shared
input scratch file — when a tag's publish fails after its render created
the per-tag output scratch file, that output file is left on disk while
the input file is removed and the error is surfaced. -/
theorem c10_output_left_on_disk (env : BatchEnv) (cfg : BannerConfig)
    (avatar : String) (durO : Option ℚ) (m : VideoMeta) (u : String → String)
    (pre : List String) (t : String) (rest : List String) (e : String)
    (hf : env.fetch = .ok ()) (hp : env.probe = .ok m)
    (hok : ∀ s ∈ pre,
      env.render s (tagGeometry cfg m avatar s (resolveDuration durO m.duration)) =
        .ok () ∧
      env.upload (.output s) = .ok (u s))
    (hrok :
      env.render t (tagGeometry cfg m avatar t (resolveDuration durO m.duration)) =
        .ok ())
    (huf : env.upload (.output t) = .error e) :
    (runBatch env cfg avatar (pre ++ t :: rest) durO).response = .error e ∧
    FPath.output t ∈ (runBatch env cfg avatar (pre ++ t :: rest) durO).files ∧
    FPath.input ∉ (runBatch env cfg avatar (pre ++ t :: rest) durO).files := by
  have hout : ∀ s ∈ pre, FPath.output s ∉ [FPath.input] := by
    intro s _; simp
  have hrun := processTags_upload_fail env cfg avatar
    (resolveDuration durO m.duration) m u hp pre t rest [FPath.input]
    [Ev.fetchEv, Ev.probeEv] [] e hok hout hrok huf
  simp only [runBatch, hf, hp]
  rw [hrun]
  simp [addFile]

/-- Environment whose upload stage fails on the output of tag `bad`,
used for the C10 witness. -/
def envC10 : BatchEnv :=
  ⟨.ok (), .ok ⟨1080, 1080, 20⟩, fun _ _ => .ok (),
    fun p => if p = .output "bad" then .error "upload failed" else .ok "url"⟩

/-- Claim C10 witness: a batch whose second tag publishes unsuccessfully
leaves that tag's output file on disk while the input file is removed. -/
theorem c10_witness :
    (runBatch envC10 defaultMergedConfig "Kay" ["a", "bad"] none).response =
      .error "upload failed" ∧
    FPath.output "bad" ∈
      (runBatch envC10 defaultMergedConfig "Kay" ["a", "bad"] none).files ∧
    FPath.input ∉
      (runBatch envC10 defaultMergedConfig "Kay" ["a", "bad"] none).files := by
  have h := c10_output_left_on_disk envC10 defaultMergedConfig "Kay" none
    ⟨1080, 1080, 20⟩ (fun _ => "url") ["a"] "bad" [] "upload failed" rfl rfl
    (by
      intro s hs
      simp only [List.mem_singleton] at hs
      subst hs
      refine ⟨rfl, ?_⟩
      show (if FPath.output "a" = FPath.output "bad" then Except.error "upload failed"
        else Except.ok "url") = Except.ok "url"
      rw [if_neg (by decide)])
    rfl
    (by
      show (if FPath.output "bad" = FPath.output "bad" then Except.error "upload failed"
        else Except.ok "url") = Except.error "upload failed"
      rw [if_pos rfl])
  exact ⟨h.1, h.2.1, h.2.2⟩
